import Mathlib

/-!
Verification development for the lotide federation server
(src/main.rs, src/routes/apub/communities.rs, src/routes/api/mod.rs).

Each Rust handler relevant to the checked properties is shallowly embedded
as a pure Lean function.  Database tables touched by a handler are lists of
row structures; the handler returns the new table state together with its
HTTP response.  External effects (remote HTTP fetches, the results of
functions living in modules not present in the source tree, such as
`apub_util`) are passed in as explicit oracle values, so a handler is a
total function of its request, its oracle outcomes and the database state.
Machine integers (Postgres BIGINT) are modelled as `Int`; UUIDs as `Nat`.
-/

/-- HTTP responses produced by the embedded handlers.  `crate::Error::Internal`,
`InternalStr` and `InternalStrStatic` are all surfaced by `main`'s service
wrapper as a 500, so they are collapsed into `internalError`. -/
inductive HResp where
  | accepted
  | badRequest (msg : String)
  | notFound (msg : String)
  | internalError
deriving DecidableEq, Repr

/-- Numeric HTTP status of a response, per `simple_response` call sites in the
source and the 500 branch of `main`'s service wrapper. -/
def statusOf : HResp → Nat
  | .accepted => 202
  | .badRequest _ => 400
  | .notFound _ => 404
  | .internalError => 500

/-- `apub_util::ACTIVITY_TYPE`.  The constant lives in `apub_util` (not in
src/); its value is the ActivityPub media type named throughout the spec. -/
def ACTIVITY_TYPE : String := "application/activity+json"

/-- Modelled from the spec: `apub_util::get_local_community_apub_id` is not in
src/; spec section 4.1 defines the mapping as `{base}/communities/{id}`. -/
def get_local_community_apub_id (hostUrlApub : String) (communityId : Int) : String :=
  hostUrlApub ++ "/communities/" ++ toString communityId

/-! ## Community inbox handler (src/routes/apub/communities.rs, handler_communities_inbox_post) -/

/-- The `object` field of a posted `Create` activity
(`ActorAndObjectPropertiesObjectEnum`): either not a `Term` (skipped by the
handler), a bare URI, or an embedded object (`BaseBox`) with a kind and an
optional id. -/
inductive CreateObjectRepr where
  | notTerm
  | termUri (objId : String)
  | termBox (kind : Option String) (objId : Option String)
deriving DecidableEq, Repr

/-- The parsed activity document: the handler matches on `req_activity.kind()`
and handles exactly `Some("Create")` and `Some("Follow")`; every other kind
falls into the wildcard arm. -/
inductive ActivityDoc where
  | createAct (obj : CreateObjectRepr)
  | followAct (objId : Option String)
  | otherAct (kind : Option String)
deriving DecidableEq, Repr

/-- The request body as seen after `serde_json::from_slice`: either a parse
failure (propagated with `?` as `Error::Internal`) or an activity document. -/
inductive InboxBody where
  | malformed
  | doc (a : ActivityDoc)
deriving DecidableEq, Repr

/-- The actor/object of the Follow activity the handler re-fetches from the
activity id URL. -/
structure FetchedFollow where
  actor : Option String
  object : Option String
deriving DecidableEq, Repr

/-- Oracle outcomes for the handler's outbound calls.  `fetchActivity = none`
models any failure of the GET / `res_to_error` / parse of the Follow
activity; `fetchUserLocalId` is the outcome of
`apub_util::get_or_fetch_user_local_id` (a known actor yields `some id`);
`fetchObjectOk = false` models a failure anywhere in the Create branch's
fetch-and-apply of the referenced object (`handle_recieved_object` lives in
`apub_util`, outside src/, so only its success or failure is modelled). -/
structure InboxEnv where
  hostUrlApub : String
  fetchActivity : Option FetchedFollow
  fetchUserLocalId : Option Int
  fetchObjectOk : Bool
deriving DecidableEq, Repr

/-- A `community_follow` row.  The handler's INSERT names only `(community,
follower)`. -/
structure CommunityFollowRow where
  community : Int
  follower : Int
  accepted : Bool
deriving DecidableEq, Repr

/-- Modelled from the spec: the default of the `accepted` column of
`community_follow` is set by the schema migrations, which are not in src/.
Spec section 4.5 gives the Follow handler's effect as
`INSERT community_follow(accepted=true)`, so the default is taken as true. -/
def communityFollowDefaultAccepted : Bool := true

/-- Database state touched (or, for the like tables, visibly not touched) by
`handler_communities_inbox_post`.  `acceptTasks` records the spawned
`send_community_follow_accept` jobs. -/
structure InboxState where
  communities : List (Int × Bool)
  community_follow : List CommunityFollowRow
  post_like : List (Int × Int)
  reply_like : List (Int × Int)
  acceptTasks : List (Int × Int)
deriving DecidableEq, Repr

/-- `SELECT local FROM community WHERE id=$1`. -/
def lookupCommunityLocal (cs : List (Int × Bool)) (cid : Int) : Option Bool :=
  (cs.find? (fun c => decide (c.1 = cid))).map (fun c => c.2)

/-- Embeds `handler_communities_inbox_post`.  The Create arm extracts the
object id exactly as the source does (400 when a Page/Note lacks an id,
silent skip for other kinds or a non-`Term` object).  The Follow arm
re-fetches the activity by its id, resolves the follower, checks that the
object is this community's local apub id, and inserts a `community_follow`
row; the INSERT has no ON CONFLICT clause, so an existing (community,
follower) row raises a unique violation which the `?` operator surfaces as
a 500.  On a successful insert (`row_count > 0`) the Accept sender is
spawned.  All other kinds fall through to the 202 response. -/
def handler_communities_inbox_post (cid : Int) (body : InboxBody) (env : InboxEnv)
    (st : InboxState) : HResp × InboxState :=
  match body with
  | .malformed => (.internalError, st)
  | .doc a =>
    match a with
    | .createAct obj =>
      let objectId : Except HResp (Option String) :=
        match obj with
        | .notTerm => .ok none
        | .termUri i => .ok (some i)
        | .termBox kind i? =>
          match kind with
          | some "Page" =>
            match i? with
            | some i => .ok (some i)
            | none => .error (.badRequest "Missing id in object")
          | some "Note" =>
            match i? with
            | some i => .ok (some i)
            | none => .error (.badRequest "Missing id in object")
          | _ => .ok none
      match objectId with
      | .error e => (e, st)
      | .ok none => (.accepted, st)
      | .ok (some _) =>
        if env.fetchObjectOk then (.accepted, st) else (.internalError, st)
    | .followAct objId =>
      match objId with
      | none => (.badRequest "Missing id in object", st)
      | some _ =>
        match env.fetchActivity with
        | none => (.internalError, st)
        | some ff =>
          match ff.actor with
          | none => (.accepted, st)
          | some _ =>
            match env.fetchUserLocalId with
            | none => (.internalError, st)
            | some followerId =>
              match ff.object with
              | none => (.accepted, st)
              | some target =>
                if target = get_local_community_apub_id env.hostUrlApub cid then
                  match lookupCommunityLocal st.communities cid with
                  | none => (.accepted, st)
                  | some localFlag =>
                    if localFlag then
                      if ∃ r ∈ st.community_follow,
                          r.community = cid ∧ r.follower = followerId then
                        (.internalError, st)
                      else
                        (.accepted,
                          { st with
                            community_follow := st.community_follow ++
                              [⟨cid, followerId, communityFollowDefaultAccepted⟩],
                            acceptTasks := st.acceptTasks ++ [(cid, followerId)] })
                    else (.accepted, st)
                else (.accepted, st)
    | .otherAct _ => (.accepted, st)

/-! ## Notification generation (src/main.rs, on_post_add_comment) -/

/-- The fields of `CommentInfo` that the notification logic inspects. -/
structure CommentInfoN where
  id : Int
  author : Option Int
  post : Int
  parent : Option Int
deriving DecidableEq, Repr

/-- The first joined row of `on_post_add_comment` (`res.0`): community and
post flags plus the post author id (`person.id` from a LEFT OUTER JOIN, so
nullable). -/
structure PostRowN where
  communityId : Int
  communityLocal : Bool
  postLocal : Bool
  postAuthor : Option Int
deriving DecidableEq, Repr

/-- The digest of the parent-reply query (`res.1`): whether the parent reply
is local and its (nullable) author.  `res.1 = none` covers both a top-level
comment and a remote parent without an `ap_id`. -/
structure ParentReplyN where
  parentLocal : Bool
  parentAuthor : Option Int
deriving DecidableEq, Repr

/-- A row of the `notification` table as inserted by `on_post_add_comment`. -/
inductive NotificationRow where
  | replyReply (toUser reply parentReply : Int)
  | postReply (toUser reply post : Int)
deriving DecidableEq, Repr

/-- The `to_user` column of a notification row. -/
def NotificationRow.toUser : NotificationRow → Int
  | .replyReply u _ _ => u
  | .postReply u _ _ => u

/-- Embeds the notification-generation block of `on_post_add_comment`
(src/main.rs lines 560-600).  For a nested comment a `reply_reply` row is
inserted when the parent reply exists, is local, its author differs from the
commenter and is non-null; for a top-level comment a `post_reply` row is
inserted when the post is local and its author differs from the commenter.
A null post author makes the source task panic at
`UserLocalID(row.get(6))` before the insert, observably inserting nothing,
which the `none` branch models. -/
def on_post_add_comment_notification (c : CommentInfoN) (postRow : Option PostRowN)
    (parentRow : Option ParentReplyN) : Option NotificationRow :=
  match postRow with
  | none => none
  | some row =>
    match c.parent with
    | some parentId =>
      match parentRow with
      | none => none
      | some pr =>
        if pr.parentLocal ∧ pr.parentAuthor ≠ c.author then
          match pr.parentAuthor with
          | some pa => some (.replyReply pa c.id parentId)
          | none => none
        else none
    | none =>
      match row.postAuthor with
      | none => none
      | some authorId =>
        if row.postLocal ∧ some authorId ≠ c.author then
          some (.postReply authorId c.id c.post)
        else none

/-- The author of the entity being commented on: the parent reply's author
for a nested comment, the post's author for a top-level comment. -/
def parentAuthorFor (c : CommentInfoN) (postRow : Option PostRowN)
    (parentRow : Option ParentReplyN) : Option Int :=
  match c.parent with
  | some _ => parentRow.bind ParentReplyN.parentAuthor
  | none => postRow.bind PostRowN.postAuthor

/-! ## Post creation (src/routes/api/mod.rs, route_unstable_posts_create) -/

/-- The deserialized request body of POST /api/unstable/posts. -/
structure PostsCreateBody where
  community : Int
  href : Option String
  content_markdown : Option String
  content_text : Option String
  title : String
deriving DecidableEq, Repr

/-- The `post` row as inserted by `route_unstable_posts_create` (columns the
INSERT supplies; `local` is always TRUE). -/
structure PostIns where
  author : Int
  href : Option String
  title : String
  community : Int
  content_text : Option String
  content_markdown : Option String
  content_html : Option String
deriving DecidableEq, Repr

/-- Outcome of the create handler: a 400 rejection (no row inserted) or an
inserted row. -/
inductive PostsCreateResult where
  | rejected (msg : String)
  | created (row : PostIns)
deriving DecidableEq, Repr

/-- Embeds the validation and INSERT of `route_unstable_posts_create`.  The
handler only rejects (a) all three of href/content_text/content_markdown
absent and (b) content_markdown and content_text both present; markdown is
rendered to html via `render_markdown` (passed in as `renderMarkdown`). -/
def route_unstable_posts_create (renderMarkdown : String → String) (user : Int)
    (b : PostsCreateBody) : PostsCreateResult :=
  if b.href = none ∧ b.content_text = none ∧ b.content_markdown = none then
    .rejected "Post must contain one of href, content_text, or content_markdown"
  else if b.content_markdown.isSome ∧ b.content_text.isSome then
    .rejected "content_markdown and content_text are mutually exclusive"
  else
    match b.content_markdown with
    | some md =>
      .created ⟨user, b.href, b.title, b.community, none, some md, some (renderMarkdown md)⟩
    | none =>
      match b.content_text with
      | some t => .created ⟨user, b.href, b.title, b.community, some t, none, none⟩
      | none => .created ⟨user, b.href, b.title, b.community, none, none, none⟩

/-! ## Likes and unlikes (src/routes/api/mod.rs, route_unstable_posts_like /
unlike and route_unstable_comments_like / unlike) -/

/-- A `post_like` row (post, person, local). -/
structure PostLikeRow where
  post : Int
  person : Int
  localFlag : Bool
deriving DecidableEq, Repr

/-- A `reply_like` row (reply, person, local). -/
structure ReplyLikeRow where
  reply : Int
  person : Int
  localFlag : Bool
deriving DecidableEq, Repr

/-- A `local_post_like_undo` row (id UUID, post, person). -/
structure PostLikeUndoRow where
  id : Nat
  post : Int
  person : Int
deriving DecidableEq, Repr

/-- A `local_reply_like_undo` row (id UUID, reply, person). -/
structure ReplyLikeUndoRow where
  id : Nat
  reply : Int
  person : Int
deriving DecidableEq, Repr

/-- Tables touched by the like/unlike handlers, plus records of the delivery
jobs they spawn.  `postLikeJobs`/`replyLikeJobs` hold the (target, person)
of each spawned Like delivery; `postUndoJobs`/`replyUndoJobs` hold the UUID
carried by each spawned Undo delivery (the task body builds the Undo
activity from exactly that UUID). -/
structure LikesState where
  post_like : List PostLikeRow
  reply_like : List ReplyLikeRow
  local_post_like_undo : List PostLikeUndoRow
  local_reply_like_undo : List ReplyLikeUndoRow
  postLikeJobs : List (Int × Int)
  replyLikeJobs : List (Int × Int)
  postUndoJobs : List Nat
  replyUndoJobs : List Nat
deriving DecidableEq, Repr

/-- Embeds `route_unstable_posts_like`: `INSERT INTO post_like (post, person,
local) VALUES ($1, $2, TRUE) ON CONFLICT (post, person) DO NOTHING`, with
the delivery task spawned only when `row_count > 0`.  Returns the new state
and the row count. -/
def route_unstable_posts_like (st : LikesState) (postId user : Int) : LikesState × Nat :=
  if ∃ r ∈ st.post_like, r.post = postId ∧ r.person = user then (st, 0)
  else
    ({ st with
        post_like := st.post_like ++ [⟨postId, user, true⟩],
        postLikeJobs := st.postLikeJobs ++ [(postId, user)] }, 1)

/-- Embeds `route_unstable_comments_like` (same shape over `reply_like`). -/
def route_unstable_comments_like (st : LikesState) (commentId user : Int) :
    LikesState × Nat :=
  if ∃ r ∈ st.reply_like, r.reply = commentId ∧ r.person = user then (st, 0)
  else
    ({ st with
        reply_like := st.reply_like ++ [⟨commentId, user, true⟩],
        replyLikeJobs := st.replyLikeJobs ++ [(commentId, user)] }, 1)

/-- Embeds the transaction of `route_unstable_posts_unlike`: DELETE the
(post, person) like rows and, when the deleted row count is positive,
INSERT a `local_post_like_undo` row with the fresh UUID `newId` — both
inside one transaction, which the single atomic state transition models.
The Undo delivery task is spawned only when `new_undo` is `some`. -/
def route_unstable_posts_unlike (st : LikesState) (newId : Nat) (postId user : Int) :
    LikesState × Option Nat :=
  let remaining := st.post_like.filter
    (fun r => ! decide (r.post = postId ∧ r.person = user))
  let rowCount := st.post_like.countP (fun r => decide (r.post = postId ∧ r.person = user))
  if rowCount > 0 then
    ({ st with
        post_like := remaining,
        local_post_like_undo := st.local_post_like_undo ++ [⟨newId, postId, user⟩],
        postUndoJobs := st.postUndoJobs ++ [newId] }, some newId)
  else ({ st with post_like := remaining }, none)

/-- Embeds `route_unstable_comments_unlike` (same shape over `reply_like` and
`local_reply_like_undo`). -/
def route_unstable_comments_unlike (st : LikesState) (newId : Nat)
    (commentId user : Int) : LikesState × Option Nat :=
  let remaining := st.reply_like.filter
    (fun r => ! decide (r.reply = commentId ∧ r.person = user))
  let rowCount := st.reply_like.countP (fun r => decide (r.reply = commentId ∧ r.person = user))
  if rowCount > 0 then
    ({ st with
        reply_like := remaining,
        local_reply_like_undo := st.local_reply_like_undo ++ [⟨newId, commentId, user⟩],
        replyUndoJobs := st.replyUndoJobs ++ [newId] }, some newId)
  else ({ st with reply_like := remaining }, none)

/-- At most one like row per (target, person) key in each like table. -/
def atMostOneLike (st : LikesState) : Prop :=
  (∀ p u, st.post_like.countP (fun r => decide (r.post = p ∧ r.person = u)) ≤ 1) ∧
  (∀ c u, st.reply_like.countP (fun r => decide (r.reply = c ∧ r.person = u)) ≤ 1)

/-! ## Task queue trigger (src/main.rs, RouteContext::enqueue_task) -/

/-- A row of the `task` table as inserted by `enqueue_task` (kind, params
JSON, max_attempts). -/
structure TaskRow where
  kind : String
  params : String
  maxAttempts : Int
deriving DecidableEq, Repr

/-- The worker trigger channel.  `worker::start_worker` (not in src/) creates
it; the spec fixes its capacity at 1, so its observable states are empty,
full (one pending wakeup) and closed. -/
inductive TriggerChan where
  | empty
  | full
  | closed
deriving DecidableEq, Repr

/-- Outcome of `tokio::sync::mpsc::Sender::try_send` on the capacity-1
channel. -/
inductive TrySendOutcome where
  | sent
  | errFull
  | errClosed
deriving DecidableEq, Repr

/-- Non-blocking send on the capacity-1 trigger channel. -/
def try_send : TriggerChan → TriggerChan × TrySendOutcome
  | .empty => (.full, .sent)
  | .full => (.full, .errFull)
  | .closed => (.closed, .errClosed)

/-- Embeds `RouteContext::enqueue_task`: INSERT the task row first (a database
failure, `dbOk = false`, propagates before any send), then `try_send` on
the trigger channel; `Ok` and `Err(Full)` both yield `Ok(())`, and only
`Err(Closed)` yields an error.  Returns (task table, channel, success). -/
def enqueue_task (dbOk : Bool) (tasks : List TaskRow) (chan : TriggerChan)
    (t : TaskRow) : List TaskRow × TriggerChan × Bool :=
  if dbOk then
    let tasks2 := tasks ++ [t]
    let s := try_send chan
    match s.2 with
    | .sent => (tasks2, s.1, true)
    | .errFull => (tasks2, s.1, true)
    | .errClosed => (tasks2, s.1, false)
  else (tasks, chan, false)

/-! ## Comment replies (src/routes/api/mod.rs, route_unstable_comments_replies_create) -/

/-- A `reply` row with the columns the reply-creation INSERT supplies. -/
structure ReplyRow where
  id : Int
  post : Int
  parent : Option Int
  author : Option Int
  localFlag : Bool
  content_text : Option String
  content_markdown : Option String
  content_html : Option String
deriving DecidableEq, Repr

/-- The deserialized body of POST /api/unstable/comments/{id}/replies. -/
structure RepliesCreateBody where
  content_text : Option String
  content_markdown : Option String
deriving DecidableEq, Repr

/-- The (content_text, content_markdown, content_html) triple computed from
the body, shared verbatim by the post- and comment-reply handlers. -/
def replyContent (renderMarkdown : String → String) (b : RepliesCreateBody) :
    Option String × Option String × Option String :=
  match b.content_markdown with
  | some md => (none, some md, some (renderMarkdown md))
  | none =>
    match b.content_text with
    | some t => (some t, none, none)
    | none => (none, none, none)

/-- Embeds `route_unstable_comments_replies_create`: validate that exactly one
of content_markdown/content_text is present (400 otherwise), look up the
parent reply's post (`SELECT post FROM reply WHERE id=$1`, 404 when
absent), then INSERT the new reply with that post id and `parent` set to
the parent.  Returns the new table and the fresh reply id. -/
def route_unstable_comments_replies_create (renderMarkdown : String → String)
    (replies : List ReplyRow) (freshId : Int) (parentId user : Int)
    (b : RepliesCreateBody) : Except HResp (List ReplyRow × Int) :=
  if ¬ (b.content_markdown.isSome ^^ b.content_text.isSome) then
    .error (.badRequest "Exactly one of content_markdown and content_text must be specified")
  else
    match replies.find? (fun r => decide (r.id = parentId)) with
    | none => .error (.notFound "No such comment")
    | some prow =>
      let c := replyContent renderMarkdown b
      .ok (replies ++ [⟨freshId, prow.post, some parentId, some user, true,
        c.1, c.2.1, c.2.2⟩], freshId)

/-- The reply-tree invariant from the spec: every reply's parent, when the
parent row is present, belongs to the same post. -/
def parentConsistent (rs : List ReplyRow) : Prop :=
  ∀ r ∈ rs, ∀ pid, r.parent = some pid → ∀ q ∈ rs, q.id = pid → q.post = r.post

/-! ## Actor lookup (src/routes/api/mod.rs, route_unstable_actors_lookup) -/

/-- A link entry of a WebFinger response (`FingerResponse.links`). -/
structure FingerLink where
  rel : String
  linkType : Option String
  href : Option String
deriving DecidableEq, Repr

/-- Outcome of the WebFinger GET: a 404 status, any other failure
(non-success status via `res_to_error`, or a body that does not parse), or
a parsed link list. -/
inductive WebfingerOutcome where
  | notFound
  | failure
  | okLinks (links : List FingerLink)
deriving DecidableEq, Repr

/-- `apub_util::ActorLocalInfo` as consumed by the lookup route: the route
only distinguishes the `Community` variant (carrying its local id) from any
other actor. -/
inductive ActorLocalInfo where
  | community (id : Int)
  | user (id : Int)
deriving DecidableEq, Repr

/-- Outcome of `apub_util::fetch_actor` (the function body is not in src/;
only its result is consumed here). -/
inductive FetchActorOutcome where
  | okActor (a : ActorLocalInfo)
  | failure
deriving DecidableEq, Repr

/-- `parse_lookup`'s result: a URI, or a WebFinger user/host pair. -/
inductive Lookup where
  | uri (u : String)
  | webfinger (user host : String)
deriving DecidableEq, Repr

/-- The possible responses of the lookup route. -/
inductive LookupResp where
  | emptyArray
  | idArray (id : Int)
  | notGroup
  | internalError
deriving DecidableEq, Repr

/-- The loop over `res.links`: the first link with rel "self", type
`application/activity+json` and a present href yields that href; a matching
link without an href is skipped (the source only breaks inside
`if let Some(href)`). -/
def findSelfLink : List FingerLink → Option String
  | [] => none
  | l :: rest =>
    if l.rel = "self" ∧ l.linkType = some ACTIVITY_TYPE then
      match l.href with
      | some h => some h
      | none => findSelfLink rest
    else findSelfLink rest

/-- The `uri` computed by the first half of `route_unstable_actors_lookup`:
a direct URI is used as-is; for a WebFinger lookup, a 404 yields `none`
(empty result), any other failure propagates as a 500, and otherwise the
self-link search decides. -/
def resolveLookupUri (lk : Lookup) (wf : WebfingerOutcome) :
    Except LookupResp (Option String) :=
  match lk with
  | .uri u => .ok (some u)
  | .webfinger _ _ =>
    match wf with
    | .notFound => .ok none
    | .failure => .error .internalError
    | .okLinks links => .ok (findSelfLink links)

/-- Embeds `route_unstable_actors_lookup`: resolve the query to an actor URI
(WebFinger when needed), return `[]` when there is none, then
`fetch_actor`; a `Community` yields `[{"id": id}]`, any other actor yields
400 "Not a group", and a fetch failure propagates as a 500. -/
def route_unstable_actors_lookup (lk : Lookup) (wf : WebfingerOutcome)
    (fetch : String → FetchActorOutcome) : LookupResp :=
  match resolveLookupUri lk wf with
  | .error e => e
  | .ok none => .emptyArray
  | .ok (some u) =>
    match fetch u with
    | .failure => .internalError
    | .okActor (.community i) => .idArray i
    | .okActor (.user _) => .notGroup

/-! ## Theorems -/

/-- C1: a Follow activity posted to the community inbox whose re-fetched copy
has a known actor and has the local community's apub id as its object makes
the handler insert a `community_follow` row for (community, follower) with
`accepted` at its (spec-modelled) default of true, and spawn the
`send_community_follow_accept` job for that follower, answering 202. -/
theorem inbox_follow_inserts_accept (cid fid : Int) (aid actorUrl : String)
    (env : InboxEnv) (st : InboxState)
    (hfetch : env.fetchActivity =
      some ⟨some actorUrl, some (get_local_community_apub_id env.hostUrlApub cid)⟩)
    (huser : env.fetchUserLocalId = some fid)
    (hlocal : lookupCommunityLocal st.communities cid = some true)
    (hnew : ¬ ∃ r ∈ st.community_follow, r.community = cid ∧ r.follower = fid) :
    (handler_communities_inbox_post cid (.doc (.followAct (some aid))) env st).1 =
      .accepted ∧
    (⟨cid, fid, true⟩ : CommunityFollowRow) ∈
      (handler_communities_inbox_post cid (.doc (.followAct (some aid))) env st).2.community_follow ∧
    (cid, fid) ∈
      (handler_communities_inbox_post cid (.doc (.followAct (some aid))) env st).2.acceptTasks := by
  simp [handler_communities_inbox_post, hfetch, huser, hlocal, hnew,
    communityFollowDefaultAccepted]

/-- Witness for C1 at a concrete follow of community 1 by remote user 7. -/
theorem inbox_follow_inserts_accept_witness :
    (handler_communities_inbox_post 1 (.doc (.followAct (some "https://peer.example/follows/5")))
      ⟨"https://inst.example",
        some ⟨some "https://peer.example/users/9", some "https://inst.example/communities/1"⟩,
        some 7, true⟩
      ⟨[(1, true)], [], [], [], []⟩).1 = .accepted ∧
    (⟨1, 7, true⟩ : CommunityFollowRow) ∈
      (handler_communities_inbox_post 1 (.doc (.followAct (some "https://peer.example/follows/5")))
        ⟨"https://inst.example",
          some ⟨some "https://peer.example/users/9", some "https://inst.example/communities/1"⟩,
          some 7, true⟩
        ⟨[(1, true)], [], [], [], []⟩).2.community_follow ∧
    ((1 : Int), (7 : Int)) ∈
      (handler_communities_inbox_post 1 (.doc (.followAct (some "https://peer.example/follows/5")))
        ⟨"https://inst.example",
          some ⟨some "https://peer.example/users/9", some "https://inst.example/communities/1"⟩,
          some 7, true⟩
        ⟨[(1, true)], [], [], [], []⟩).2.acceptTasks :=
  inbox_follow_inserts_accept 1 7 "https://peer.example/follows/5"
    "https://peer.example/users/9" _ _ (by decide) rfl (by decide) (by decide)

/-- C2 counterexample: a request body that does not parse as an activity
document is answered with a 500 (the serde error propagates as
`Error::Internal`), not with a 4xx as the claim states. -/
theorem inbox_malformed_gives_500 :
    statusOf (handler_communities_inbox_post 1 .malformed
      ⟨"https://inst.example", none, none, true⟩ ⟨[], [], [], [], []⟩).1 = 500 := rfl

/-- C2 (amended): the community inbox never returns 401 (there is no
signature verification in the handler), a malformed body is answered with a
500 and leaves the state unchanged, and any activity kind other than Create
and Follow is acknowledged with 202 without effect. -/
theorem inbox_response_codes (cid : Int) (body : InboxBody) (env : InboxEnv)
    (st : InboxState) :
    statusOf (handler_communities_inbox_post cid body env st).1 ≠ 401 ∧
    (body = .malformed →
      handler_communities_inbox_post cid body env st = (.internalError, st)) ∧
    (∀ k, body = .doc (.otherAct k) →
      handler_communities_inbox_post cid body env st = (.accepted, st)) := by
  refine ⟨?_, ?_, ?_⟩
  · unfold handler_communities_inbox_post
    repeat' split
    all_goals simp [statusOf]
  · rintro rfl; rfl
  · rintro k rfl; rfl

/-- Witness for C2's amended statement at a concrete malformed request. -/
theorem inbox_response_codes_witness :
    handler_communities_inbox_post 1 .malformed
      ⟨"https://inst.example", none, none, true⟩ ⟨[], [], [], [], []⟩ =
    (.internalError, ⟨[], [], [], [], []⟩) :=
  (inbox_response_codes 1 .malformed
    ⟨"https://inst.example", none, none, true⟩ ⟨[], [], [], [], []⟩).2.1 rfl

/-- C3 counterexample: a Like activity posted to the community inbox leaves
both like tables (and the whole state) untouched and is acknowledged with
202 — no `post_like`/`reply_like` row is inserted and nothing is fanned
out. -/
theorem inbox_like_not_applied :
    (handler_communities_inbox_post 1 (.doc (.otherAct (some "Like")))
      ⟨"https://inst.example", none, none, true⟩ ⟨[(1, true)], [], [], [], []⟩).2 =
      ⟨[(1, true)], [], [], [], []⟩ ∧
    (handler_communities_inbox_post 1 (.doc (.otherAct (some "Like")))
      ⟨"https://inst.example", none, none, true⟩ ⟨[(1, true)], [], [], [], []⟩).1 =
      .accepted := ⟨rfl, rfl⟩

/-- C3 (amended): the community inbox handler dispatches only on Create and
Follow; every other activity kind — Like included — is acknowledged with
202 and produces no state change whatsoever. -/
theorem inbox_ignores_other_kinds (cid : Int) (k : Option String) (env : InboxEnv)
    (st : InboxState) :
    handler_communities_inbox_post cid (.doc (.otherAct k)) env st = (.accepted, st) := rfl

/-- C4: commenting never notifies the commenter about themselves — when the
commenter equals the author of the parent post (top-level comment) or of
the parent reply (nested comment) no notification row is produced, and any
produced notification goes to a user different from the commenter. -/
theorem no_self_notification (c : CommentInfoN) (pr : Option PostRowN)
    (pa : Option ParentReplyN) :
    (parentAuthorFor c pr pa = c.author →
      on_post_add_comment_notification c pr pa = none) ∧
    (∀ n, on_post_add_comment_notification c pr pa = some n →
      c.author ≠ some n.toUser) := by
  obtain ⟨cid, cauthor, cpost, cparent⟩ := c
  rcases pr with _ | ⟨rcid, rclocal, rplocal, rauthor⟩
  · simp [on_post_add_comment_notification]
  rcases cparent with _ | parentId
  · rcases rauthor with _ | authorId
    · simp [on_post_add_comment_notification, parentAuthorFor]
    · constructor
      · intro h
        simp only [parentAuthorFor, Option.bind_eq_bind, Option.some_bind] at h
        simp [on_post_add_comment_notification, h]
      · intro n hn
        simp only [on_post_add_comment_notification] at hn
        by_cases hc : rplocal = true ∧ some authorId ≠ cauthor
        · rw [if_pos hc] at hn
          cases hn
          simp only [NotificationRow.toUser]
          exact fun hEq => hc.2 hEq.symm
        · rw [if_neg hc] at hn
          exact absurd hn (by simp)
  · rcases pa with _ | ⟨plocal, pauthor⟩
    · simp [on_post_add_comment_notification, parentAuthorFor]
    · constructor
      · intro h
        simp only [parentAuthorFor, Option.bind_eq_bind, Option.some_bind] at h
        rcases pauthor with _ | pAuthor
        · simp only [on_post_add_comment_notification]
          split <;> rfl
        · simp [on_post_add_comment_notification, h]
      · intro n hn
        simp only [on_post_add_comment_notification] at hn
        by_cases hc : plocal = true ∧ pauthor ≠ cauthor
        · rw [if_pos hc] at hn
          rcases pauthor with _ | pAuthor
          · exact absurd hn (by simp)
          · cases hn
            simp only [NotificationRow.toUser]
            have h2 := hc.2
            exact fun hEq => h2 hEq.symm
        · rw [if_neg hc] at hn
          exact absurd hn (by simp)

/-- Witness for C4: a user commenting on their own post yields no
notification, and a comment by a different user yields one addressed to the
post author, not the commenter. -/
theorem no_self_notification_witness :
    on_post_add_comment_notification ⟨10, some 3, 5, none⟩
      (some ⟨2, true, true, some 3⟩) none = none ∧
    (∀ n, on_post_add_comment_notification ⟨11, some 4, 5, none⟩
      (some ⟨2, true, true, some 3⟩) none = some n → (some 4 : Option Int) ≠ some n.toUser) :=
  ⟨(no_self_notification ⟨10, some 3, 5, none⟩ (some ⟨2, true, true, some 3⟩) none).1 rfl,
   (no_self_notification ⟨11, some 4, 5, none⟩ (some ⟨2, true, true, some 3⟩) none).2⟩

/-- C5 counterexample: a create request carrying both `href` and
`content_text` is accepted and a post row is inserted, contradicting the
claim that any combination of more than one of href/content_text/
content_markdown is rejected with a 400 and no insert. -/
theorem posts_create_accepts_href_and_text :
    route_unstable_posts_create (fun s => s) 1
      ⟨2, some "https://example.com/a", none, some "hello", "T"⟩ =
    .created ⟨1, some "https://example.com/a", "T", 2, some "hello", none, none⟩ := rfl

/-- C5 (amended): POST /api/unstable/posts is rejected with a 400 (and no
post row inserted) exactly when none of href/content_text/content_markdown
is present or when content_markdown and content_text are both present; in
every other case — including href combined with one of the content fields —
a post row is inserted for the requesting user. -/
theorem posts_create_validation (rm : String → String) (u : Int)
    (b : PostsCreateBody) :
    ((∃ m, route_unstable_posts_create rm u b = .rejected m) ↔
      ((b.href = none ∧ b.content_text = none ∧ b.content_markdown = none) ∨
       (b.content_markdown.isSome ∧ b.content_text.isSome))) ∧
    (∀ row, route_unstable_posts_create rm u b = .created row →
      row.author = u ∧ row.community = b.community ∧ row.href = b.href ∧
      row.title = b.title) := by
  unfold route_unstable_posts_create
  constructor
  · constructor
    · rintro ⟨m, hm⟩
      by_contra hcond
      push_neg at hcond
      split at hm
      · rename_i hall; exact absurd (Or.inl hall) (by tauto)
      · split at hm
        · rename_i hboth; exact absurd (Or.inr hboth) (by tauto)
        · split at hm
          · exact absurd hm (by simp)
          · split at hm
            · exact absurd hm (by simp)
            · exact absurd hm (by simp)
    · intro hcond
      split
      · exact ⟨_, rfl⟩
      · rename_i hnall
        split
        · exact ⟨_, rfl⟩
        · rename_i hnboth
          rcases hcond with hall | hboth
          · exact absurd hall hnall
          · exact absurd hboth hnboth
  · intro row hrow
    split at hrow
    · exact absurd hrow (by simp)
    · split at hrow
      · exact absurd hrow (by simp)
      · split at hrow
        · cases hrow; exact ⟨rfl, rfl, rfl, rfl⟩
        · split at hrow
          · cases hrow; exact ⟨rfl, rfl, rfl, rfl⟩
          · cases hrow; exact ⟨rfl, rfl, rfl, rfl⟩

/-- Witness for C5's amended statement: a body with only markdown and text
set is rejected, and the href-plus-text body is inserted with the
requesting user as author. -/
theorem posts_create_validation_witness :
    (∃ m, route_unstable_posts_create (fun s => s) 1
      ⟨2, none, some "md", some "t", "T"⟩ = .rejected m) ∧
    (∀ row, route_unstable_posts_create (fun s => s) 1
      ⟨2, some "https://example.com/a", none, some "hello", "T"⟩ = .created row →
      row.author = 1 ∧ row.community = 2 ∧ row.href = some "https://example.com/a" ∧
      row.title = "T") :=
  ⟨(posts_create_validation (fun s => s) 1 ⟨2, none, some "md", some "t", "T"⟩).1.mpr
      (Or.inr ⟨rfl, rfl⟩),
   (posts_create_validation (fun s => s) 1
      ⟨2, some "https://example.com/a", none, some "hello", "T"⟩).2⟩

/-- C6: the unlike transaction deletes the (target, person) like rows and
inserts an undo row carrying the fresh UUID exactly when a like row
existed; when none existed the state — undo tables and spawned deliveries
included — is returned unchanged and no Undo job is spawned.  Both the post
and the comment endpoints are covered. -/
theorem unlike_undo_iff (st : LikesState) (newId : Nat) (pid cmtId user : Int) :
    ((∃ r ∈ st.post_like, r.post = pid ∧ r.person = user) →
      route_unstable_posts_unlike st newId pid user =
        ({ st with
            post_like := st.post_like.filter
              (fun r => ! decide (r.post = pid ∧ r.person = user)),
            local_post_like_undo := st.local_post_like_undo ++ [⟨newId, pid, user⟩],
            postUndoJobs := st.postUndoJobs ++ [newId] }, some newId)) ∧
    ((¬ ∃ r ∈ st.post_like, r.post = pid ∧ r.person = user) →
      route_unstable_posts_unlike st newId pid user = (st, none)) ∧
    ((∃ r ∈ st.reply_like, r.reply = cmtId ∧ r.person = user) →
      route_unstable_comments_unlike st newId cmtId user =
        ({ st with
            reply_like := st.reply_like.filter
              (fun r => ! decide (r.reply = cmtId ∧ r.person = user)),
            local_reply_like_undo := st.local_reply_like_undo ++ [⟨newId, cmtId, user⟩],
            replyUndoJobs := st.replyUndoJobs ++ [newId] }, some newId)) ∧
    ((¬ ∃ r ∈ st.reply_like, r.reply = cmtId ∧ r.person = user) →
      route_unstable_comments_unlike st newId cmtId user = (st, none)) := by
  refine ⟨?_, ?_, ?_, ?_⟩
  · intro h
    have hpos : 0 < st.post_like.countP
        (fun r => decide (r.post = pid ∧ r.person = user)) := by
      rw [List.countP_pos_iff]
      obtain ⟨r, hr, hp⟩ := h
      exact ⟨r, hr, by simpa using hp⟩
    simp only [route_unstable_posts_unlike]
    rw [if_pos hpos]
  · intro h
    have hzero : st.post_like.countP
        (fun r => decide (r.post = pid ∧ r.person = user)) = 0 := by
      rw [List.countP_eq_zero]
      intro r hr
      simp only [decide_eq_true_eq]
      exact fun hp => h ⟨r, hr, hp⟩
    have hfilter : st.post_like.filter
        (fun r => ! decide (r.post = pid ∧ r.person = user)) = st.post_like := by
      rw [List.filter_eq_self]
      intro r hr
      simp only [Bool.not_eq_true', decide_eq_false_iff_not]
      exact fun hp => h ⟨r, hr, hp⟩
    simp only [route_unstable_posts_unlike]
    rw [hzero, if_neg (by omega), hfilter]
  · intro h
    have hpos : 0 < st.reply_like.countP
        (fun r => decide (r.reply = cmtId ∧ r.person = user)) := by
      rw [List.countP_pos_iff]
      obtain ⟨r, hr, hp⟩ := h
      exact ⟨r, hr, by simpa using hp⟩
    simp only [route_unstable_comments_unlike]
    rw [if_pos hpos]
  · intro h
    have hzero : st.reply_like.countP
        (fun r => decide (r.reply = cmtId ∧ r.person = user)) = 0 := by
      rw [List.countP_eq_zero]
      intro r hr
      simp only [decide_eq_true_eq]
      exact fun hp => h ⟨r, hr, hp⟩
    have hfilter : st.reply_like.filter
        (fun r => ! decide (r.reply = cmtId ∧ r.person = user)) = st.reply_like := by
      rw [List.filter_eq_self]
      intro r hr
      simp only [Bool.not_eq_true', decide_eq_false_iff_not]
      exact fun hp => h ⟨r, hr, hp⟩
    simp only [route_unstable_comments_unlike]
    rw [hzero, if_neg (by omega), hfilter]

/-- Witness for C6: unliking post 9 with an existing like by user 2 deletes
it and records the undo UUID 42; unliking without an existing like changes
nothing. -/
theorem unlike_undo_iff_witness :
    route_unstable_posts_unlike ⟨[⟨9, 2, true⟩], [], [], [], [], [], [], []⟩ 42 9 2 =
      (⟨[], [], [⟨42, 9, 2⟩], [], [], [], [42], []⟩, some 42) ∧
    route_unstable_posts_unlike ⟨[], [], [], [], [], [], [], []⟩ 42 9 2 =
      (⟨[], [], [], [], [], [], [], []⟩, none) := by
  constructor
  · have h := (unlike_undo_iff ⟨[⟨9, 2, true⟩], [], [], [], [], [], [], []⟩ 42 9 99 2).1
      ⟨⟨9, 2, true⟩, by simp, rfl, rfl⟩
    rw [h]
    rfl
  · exact (unlike_undo_iff ⟨[], [], [], [], [], [], [], []⟩ 42 9 99 2).2.1 (by simp)

/-- C7: the like endpoints are idempotent.  An existing (target, person) like
row makes the handler leave the state unchanged (no insert, no delivery
job) and report row count 0; otherwise exactly one row and one delivery job
are appended; and in either case the at-most-one-like-per-key invariant is
preserved.  Both the post and the comment endpoints are covered. -/
theorem like_idempotent (st : LikesState) (pid cmtId user : Int) :
    ((∃ r ∈ st.post_like, r.post = pid ∧ r.person = user) →
      route_unstable_posts_like st pid user = (st, 0)) ∧
    ((¬ ∃ r ∈ st.post_like, r.post = pid ∧ r.person = user) →
      route_unstable_posts_like st pid user =
        ({ st with
            post_like := st.post_like ++ [⟨pid, user, true⟩],
            postLikeJobs := st.postLikeJobs ++ [(pid, user)] }, 1)) ∧
    (atMostOneLike st → atMostOneLike (route_unstable_posts_like st pid user).1) ∧
    ((∃ r ∈ st.reply_like, r.reply = cmtId ∧ r.person = user) →
      route_unstable_comments_like st cmtId user = (st, 0)) ∧
    ((¬ ∃ r ∈ st.reply_like, r.reply = cmtId ∧ r.person = user) →
      route_unstable_comments_like st cmtId user =
        ({ st with
            reply_like := st.reply_like ++ [⟨cmtId, user, true⟩],
            replyLikeJobs := st.replyLikeJobs ++ [(cmtId, user)] }, 1)) ∧
    (atMostOneLike st → atMostOneLike (route_unstable_comments_like st cmtId user).1) := by
  refine ⟨?_, ?_, ?_, ?_, ?_, ?_⟩
  · intro h
    simp [route_unstable_posts_like, h]
  · intro h
    simp [route_unstable_posts_like, h]
  · intro hinv
    by_cases h : ∃ r ∈ st.post_like, r.post = pid ∧ r.person = user
    · simpa [route_unstable_posts_like, h] using hinv
    · simp only [route_unstable_posts_like, if_neg h]
      refine ⟨?_, hinv.2⟩
      intro p u
      rw [List.countP_append]
      by_cases hk : pid = p ∧ user = u
      · obtain ⟨rfl, rfl⟩ := hk
        have h0 : st.post_like.countP
            (fun r => decide (r.post = pid ∧ r.person = user)) = 0 := by
          rw [List.countP_eq_zero]
          intro r hr
          simpa using fun hp => h ⟨r, hr, hp⟩
        rw [h0]
        simp
      · have h1 : List.countP (fun r => decide (r.post = p ∧ r.person = u))
            [(⟨pid, user, true⟩ : PostLikeRow)] = 0 := by
          simp only [List.countP_cons, List.countP_nil]
          simp [hk]
        rw [h1]
        have := hinv.1 p u
        omega
  · intro h
    simp [route_unstable_comments_like, h]
  · intro h
    simp [route_unstable_comments_like, h]
  · intro hinv
    by_cases h : ∃ r ∈ st.reply_like, r.reply = cmtId ∧ r.person = user
    · simpa [route_unstable_comments_like, h] using hinv
    · simp only [route_unstable_comments_like, if_neg h]
      refine ⟨hinv.1, ?_⟩
      intro p u
      rw [List.countP_append]
      by_cases hk : cmtId = p ∧ user = u
      · obtain ⟨rfl, rfl⟩ := hk
        have h0 : st.reply_like.countP
            (fun r => decide (r.reply = cmtId ∧ r.person = user)) = 0 := by
          rw [List.countP_eq_zero]
          intro r hr
          simpa using fun hp => h ⟨r, hr, hp⟩
        rw [h0]
        simp
      · have h1 : List.countP (fun r => decide (r.reply = p ∧ r.person = u))
            [(⟨cmtId, user, true⟩ : ReplyLikeRow)] = 0 := by
          simp only [List.countP_cons, List.countP_nil]
          simp [hk]
        rw [h1]
        have := hinv.2 p u
        omega

/-- Witness for C7: liking post 9 twice by user 2 inserts one row and one
delivery job the first time and is a no-op the second time, and the
one-row-per-key invariant holds afterwards. -/
theorem like_idempotent_witness :
    route_unstable_posts_like ⟨[⟨9, 2, true⟩], [], [], [], [(9, 2)], [], [], []⟩ 9 2 =
      (⟨[⟨9, 2, true⟩], [], [], [], [(9, 2)], [], [], []⟩, 0) ∧
    atMostOneLike (route_unstable_posts_like
      ⟨[⟨9, 2, true⟩], [], [], [], [(9, 2)], [], [], []⟩ 9 2).1 := by
  constructor
  · exact (like_idempotent ⟨[⟨9, 2, true⟩], [], [], [], [(9, 2)], [], [], []⟩ 9 9 2).1
      ⟨⟨9, 2, true⟩, by simp, rfl, rfl⟩
  · refine (like_idempotent ⟨[⟨9, 2, true⟩], [], [], [], [(9, 2)], [], [], []⟩ 9 9 2).2.2.1 ?_
    constructor
    · intro p u
      simp only [List.countP_cons, List.countP_nil]
      split <;> omega
    · intro p u
      simp [List.countP_nil]

/-- C8: `RouteContext::enqueue_task` appends the task row to the task table
and then does a non-blocking send on the capacity-1 trigger channel: a full
channel still counts as success, failure is reported exactly when the
channel is closed, and a database failure aborts before the channel is
touched. -/
theorem enqueue_task_semantics (dbOk : Bool) (tasks : List TaskRow)
    (chan : TriggerChan) (t : TaskRow) :
    (dbOk = true →
      (enqueue_task dbOk tasks chan t).1 = tasks ++ [t] ∧
      ((enqueue_task dbOk tasks chan t).2.2 = false ↔ chan = .closed) ∧
      (chan = .full → (enqueue_task dbOk tasks chan t).2.2 = true)) ∧
    (dbOk = false → enqueue_task dbOk tasks chan t = (tasks, chan, false)) := by
  cases dbOk <;> cases chan <;> simp [enqueue_task, try_send]

/-- Witness for C8: with a successful insert on a full channel the task row
is stored and the call still succeeds. -/
theorem enqueue_task_semantics_witness :
    (enqueue_task true [] .full ⟨"deliver_to_inbox", "x", 8⟩).2.2 = true ∧
    (enqueue_task true [] .full ⟨"deliver_to_inbox", "x", 8⟩).1 =
      [⟨"deliver_to_inbox", "x", 8⟩] := by
  constructor
  · exact ((enqueue_task_semantics true [] .full ⟨"deliver_to_inbox", "x", 8⟩).1 rfl).2.2 rfl
  · have h := ((enqueue_task_semantics true [] .full ⟨"deliver_to_inbox", "x", 8⟩).1 rfl).1
    simpa using h

/-- Helper: any successful run of the comment-reply handler found a parent
row in the table and appended exactly one reply that copies the parent's
post id. -/
theorem comments_replies_create_ok_shape (rm : String → String)
    (replies : List ReplyRow) (freshId parentId user : Int) (b : RepliesCreateBody)
    (rs : List ReplyRow) (nid : Int)
    (hok : route_unstable_comments_replies_create rm replies freshId parentId user b =
      .ok (rs, nid)) :
    ∃ prow ∈ replies, prow.id = parentId ∧
      rs = replies ++ [⟨freshId, prow.post, some parentId, some user, true,
        (replyContent rm b).1, (replyContent rm b).2.1, (replyContent rm b).2.2⟩] ∧
      nid = freshId := by
  by_cases hbody : (b.content_markdown.isSome ^^ b.content_text.isSome) = true
  · rw [route_unstable_comments_replies_create, if_neg (fun hc => hc hbody)] at hok
    cases hfind : replies.find? (fun r => decide (r.id = parentId)) with
    | none =>
      rw [hfind] at hok
      exact absurd hok (by simp)
    | some prow =>
      rw [hfind] at hok
      simp only [Except.ok.injEq, Prod.mk.injEq] at hok
      have hp : prow.id = parentId := by
        have hps := List.find?_some hfind
        simpa using hps
      exact ⟨prow, List.mem_of_find?_eq_some hfind, hp, hok.1.symm, hok.2.symm⟩
  · rw [route_unstable_comments_replies_create, if_pos hbody] at hok
    exact absurd hok (by simp)

/-- C9: the comment-reply handler keeps the same-post invariant.  With a
valid body, a missing parent is answered with 404 and nothing is inserted;
a successful run appends exactly one reply whose post id is copied from the
parent row; and the reply-tree invariant (a reply's parent, when present in
the table, belongs to the same post) is preserved. -/
theorem comments_replies_create_invariant (rm : String → String)
    (replies : List ReplyRow) (freshId parentId user : Int) (b : RepliesCreateBody)
    (hnodup : (replies.map ReplyRow.id).Nodup)
    (hfresh : ∀ r ∈ replies, r.id ≠ freshId ∧ r.parent ≠ some freshId) :
    ((b.content_markdown.isSome ^^ b.content_text.isSome) = true →
      (∀ r ∈ replies, r.id ≠ parentId) →
      route_unstable_comments_replies_create rm replies freshId parentId user b =
        .error (.notFound "No such comment")) ∧
    (∀ rs nid,
      route_unstable_comments_replies_create rm replies freshId parentId user b =
        .ok (rs, nid) →
      ∃ prow ∈ replies, prow.id = parentId ∧
        rs = replies ++ [⟨freshId, prow.post, some parentId, some user, true,
          (replyContent rm b).1, (replyContent rm b).2.1, (replyContent rm b).2.2⟩] ∧
        nid = freshId) ∧
    (parentConsistent replies → ∀ rs nid,
      route_unstable_comments_replies_create rm replies freshId parentId user b =
        .ok (rs, nid) →
      parentConsistent rs) := by
  refine ⟨?_, ?_, ?_⟩
  · intro hbody hnone
    rw [route_unstable_comments_replies_create, if_neg (fun hc => hc hbody)]
    have hfind : replies.find? (fun r => decide (r.id = parentId)) = none := by
      rw [List.find?_eq_none]
      intro r hr
      simpa using hnone r hr
    rw [hfind]
  · intro rs nid hok
    exact comments_replies_create_ok_shape rm replies freshId parentId user b rs nid hok
  · intro hcons rs nid hok
    obtain ⟨prow, hmem, hpid, hrs, _⟩ :=
      comments_replies_create_ok_shape rm replies freshId parentId user b rs nid hok
    subst hrs
    intro r hr pid hpar q hq hqid
    rcases List.mem_append.mp hr with hro | hrn
    · rcases List.mem_append.mp hq with hqo | hqn
      · exact hcons r hro pid hpar q hqo hqid
      · exfalso
        have hqeq : q = ⟨freshId, prow.post, some parentId, some user, true,
            (replyContent rm b).1, (replyContent rm b).2.1, (replyContent rm b).2.2⟩ := by
          simpa using hqn
        apply (hfresh r hro).2
        rw [hpar]
        rw [hqeq] at hqid
        simp at hqid
        rw [hqid]
    · have hreq : r = ⟨freshId, prow.post, some parentId, some user, true,
          (replyContent rm b).1, (replyContent rm b).2.1, (replyContent rm b).2.2⟩ := by
        simpa using hrn
      subst hreq
      have hpid2 : pid = parentId := by
        have hp2 := hpar
        simp only at hp2
        simp at hp2
        exact hp2.symm
      rcases List.mem_append.mp hq with hqo | hqn
      · have hq_prow : q = prow := by
          apply List.inj_on_of_nodup_map hnodup hqo hmem
          rw [hqid, hpid2, ← hpid]
        rw [hq_prow]
      · have hqeq : q = ⟨freshId, prow.post, some parentId, some user, true,
            (replyContent rm b).1, (replyContent rm b).2.1, (replyContent rm b).2.2⟩ := by
          simpa using hqn
        rw [hqeq]

/-- Witness for C9 at a concrete table: replying to missing comment 5 gives
404; replying to comment 3 of post 7 appends a reply on post 7; the
invariant is preserved. -/
theorem comments_replies_create_invariant_witness :
    (route_unstable_comments_replies_create (fun s => s)
      [⟨3, 7, none, some 2, true, some "hi", none, none⟩] 4 5 2
      ⟨some "yo", none⟩ = .error (.notFound "No such comment")) ∧
    (parentConsistent [⟨3, 7, none, some 2, true, some "hi", none, none⟩] →
      ∀ rs nid, route_unstable_comments_replies_create (fun s => s)
        [⟨3, 7, none, some 2, true, some "hi", none, none⟩] 4 3 2
        ⟨some "yo", none⟩ = .ok (rs, nid) → parentConsistent rs) := by
  constructor
  · exact (comments_replies_create_invariant (fun s => s)
      [⟨3, 7, none, some 2, true, some "hi", none, none⟩] 4 5 2 ⟨some "yo", none⟩
      (by simp) (by simp)).1 rfl (by simp)
  · exact (comments_replies_create_invariant (fun s => s)
      [⟨3, 7, none, some 2, true, some "hi", none, none⟩] 4 3 2 ⟨some "yo", none⟩
      (by simp) (by simp)).2.2

/-- Helper: when no link of the WebFinger response has rel "self" together
with the activity+json type, the self-link search comes up empty. -/
theorem findSelfLink_eq_none (links : List FingerLink)
    (h : ∀ l ∈ links, ¬ (l.rel = "self" ∧ l.linkType = some ACTIVITY_TYPE)) :
    findSelfLink links = none := by
  induction links with
  | nil => rfl
  | cons l rest ih =>
    rw [findSelfLink, if_neg (h l (by simp))]
    exact ih (fun x hx => h x (by simp [hx]))

/-- C10: the actor lookup returns 200 with an empty array when the WebFinger
request 404s or when no rel-"self" activity+json link exists; an id array
is produced only when `fetch_actor` resolved the URI to a Community (with
that community's local id); and a resolved non-Community actor is answered
with 400 "Not a group". -/
theorem actors_lookup_spec (lk : Lookup) (wf : WebfingerOutcome)
    (fetch : String → FetchActorOutcome) (wuser whost : String) :
    (route_unstable_actors_lookup (.webfinger wuser whost) .notFound fetch =
      .emptyArray) ∧
    (∀ links, (∀ l ∈ links, ¬ (l.rel = "self" ∧ l.linkType = some ACTIVITY_TYPE)) →
      route_unstable_actors_lookup (.webfinger wuser whost) (.okLinks links) fetch =
        .emptyArray) ∧
    (∀ i, route_unstable_actors_lookup lk wf fetch = .idArray i →
      ∃ uri, resolveLookupUri lk wf = .ok (some uri) ∧
        fetch uri = .okActor (.community i)) ∧
    (∀ uri aid, resolveLookupUri lk wf = .ok (some uri) →
      fetch uri = .okActor (.user aid) →
      route_unstable_actors_lookup lk wf fetch = .notGroup) := by
  refine ⟨rfl, ?_, ?_, ?_⟩
  · intro links hlinks
    rw [route_unstable_actors_lookup]
    simp only [resolveLookupUri]
    rw [findSelfLink_eq_none links hlinks]
  · intro i hi
    rw [route_unstable_actors_lookup] at hi
    cases hres : resolveLookupUri lk wf with
    | error e =>
      rw [hres] at hi
      subst hi
      exact absurd hres (by cases lk <;> cases wf <;> simp [resolveLookupUri])
    | ok o =>
      cases o with
      | none =>
        rw [hres] at hi
        exact absurd hi (by simp)
      | some uri =>
        rw [hres] at hi
        dsimp only at hi
        refine ⟨uri, rfl, ?_⟩
        cases hf : fetch uri with
        | failure => rw [hf] at hi; exact absurd hi (by simp)
        | okActor a =>
          cases a with
          | community j =>
            rw [hf] at hi
            simp only [LookupResp.idArray.injEq] at hi
            rw [hi]
          | user j => rw [hf] at hi; exact absurd hi (by simp)
  · intro uri aid hres hf
    rw [route_unstable_actors_lookup, hres]
    dsimp only
    rw [hf]

/-- Witness for C10: a WebFinger response without a matching self link gives
the empty array, a resolved Community 8 gives its id, a resolved Person
gives "Not a group". -/
theorem actors_lookup_spec_witness :
    (route_unstable_actors_lookup (.webfinger "alice" "peer.example")
      (.okLinks [⟨"other", some ACTIVITY_TYPE, some "https://peer.example/u/1"⟩])
      (fun _ => .failure) = .emptyArray) ∧
    (route_unstable_actors_lookup (.uri "https://peer.example/c/8") .notFound
      (fun _ => .okActor (.user 4)) = .notGroup) := by
  constructor
  · exact (actors_lookup_spec (.uri "x") .notFound (fun _ => .failure)
      "alice" "peer.example").2.1
      [⟨"other", some ACTIVITY_TYPE, some "https://peer.example/u/1"⟩] (by simp)
  · exact (actors_lookup_spec (.uri "https://peer.example/c/8") .notFound
      (fun _ => .okActor (.user 4)) "w" "h").2.2.2 "https://peer.example/c/8" 4 rfl rfl
